import Mathlib

/-!
Verification of the ICP blog canister (`src/icp_blog_rust/src/lib.rs`).

Shallow embedding conventions:
* `u64` and `u32` are embedded as `Nat`, with an explicit `% 2^64` where the
  source arithmetic can wrap (the id counter increment).  The like counter is
  guarded by the source before every increment/decrement, so its updates carry
  the `% 2^32` reduction only where the source performs arithmetic.
* A `Principal` is embedded by its textual form (`Principal::to_text` is
  injective), so the source's `to_string()` comparisons become plain string
  equality.
* The IC environment (`caller()`, `time()`) is passed explicitly to every
  operation.
* The stable BTree map is embedded as an association list with the three
  operations the source uses: `get`, `insert` (upsert) and `remove`.
* Fallible operations return `Except Error BlogPost` together with the state
  after the call (the id counter can advance even on a failing `create`).
-/

/-- Embedding of `candid::Principal`, identified with its textual rendering. -/
abbrev Principal := String

/-- Embedding of the `BlogPost` struct (lib.rs lines 16-26). -/
structure BlogPost where
  id : Nat
  title : String
  content : String
  author : String
  created_at : Nat
  updated_at : Option Nat
  likes : Nat
  categories : List String
  liked : List Principal
deriving DecidableEq, Repr

/-- Embedding of the `BlogPostPayload` struct (lib.rs lines 63-69). -/
structure BlogPostPayload where
  title : String
  content : String
  categories : List String
deriving DecidableEq, Repr

/-- A single field-constraint violation detected by the derived
`BlogPostPayload::validate` (the `validator` crate accumulates one entry per
violated rule; the source renders them all into the error string). -/
inductive ValidationIssue where
  | titleTooShort
  | contentTooShort
deriving DecidableEq, Repr

/-- Embedding of the `Error` enum (lib.rs lines 255-264).  `ValidationErrors`
carries the list of violated rules instead of the source's string rendering of
that same list. -/
inductive Error where
  | ValidationErrors (errors : List ValidationIssue)
  | NotFound (msg : String)
  | NotAuthorized (msg : String)
  | AlreadyLiked (msg : String)
  | NotLiked (msg : String)
  | HasLikes (msg : String)
  | MaxLikes (msg : String)
  | MinLikes (msg : String)
deriving DecidableEq, Repr

/-- `u64::MAX`. -/
def U64MAX : Nat := 18446744073709551615

/-- `u32::MAX`. -/
def U32MAX : Nat := 4294967295

/-- Embedding of `Iterator::position`: index of the first element satisfying
the predicate. -/
def position (p : α → Bool) : List α → Option Nat
  | [] => none
  | x :: xs => if p x then some 0 else (position p xs).map (· + 1)

/-- Embedding of `Vec::swap_remove i`: replace the element at `i` with the
last element and pop the last element.  (The source only calls it with an
in-bounds index coming from `position`.) -/
def swapRemove (l : List α) (i : Nat) : List α :=
  match l.getLast? with
  | none => l
  | some last => (l.set i last).dropLast

/-- The stable map `BLOG_POSTS`, embedded as an association list. -/
abbrev Store := List (Nat × BlogPost)

/-- `StableBTreeMap::get`. -/
def Store.get (s : Store) (i : Nat) : Option BlogPost :=
  match List.find? (fun e => e.1 == i) s with
  | some e => some e.2
  | none => none

/-- `StableBTreeMap::insert` (upsert). -/
def Store.insert (i : Nat) (p : BlogPost) (s : Store) : Store :=
  (i, p) :: List.filter (fun e => !(e.1 == i)) s

/-- `StableBTreeMap::remove`. -/
def Store.remove (i : Nat) (s : Store) : Store :=
  List.filter (fun e => !(e.1 == i)) s

/-- The canister's durable state: the `ID_COUNTER` cell and the `BLOG_POSTS`
map. -/
structure CanisterState where
  idCounter : Nat
  posts : Store
deriving DecidableEq, Repr

/-- The state at canister installation: counter 0, empty map. -/
def initState : CanisterState := { idCounter := 0, posts := [] }

/-- Embedding of `generate_unique_id` (lib.rs lines 112-126): reads the
counter, stores `counter + 1` (a `u64`, hence the wrap), then returns the old
value only if it was below `u64::MAX`. -/
def generate_unique_id (counter : Nat) : Option Nat × Nat :=
  let current := counter
  let stored := (current + 1) % (U64MAX + 1)
  (if current < U64MAX then some current else none, stored)

/-- Embedding of the derived `BlogPostPayload::validate`: title length ≥ 1 and
content length ≥ 5, accumulating every violated rule. -/
def BlogPostPayload.validate (p : BlogPostPayload) : Except (List ValidationIssue) Unit :=
  let issues :=
    (if p.title.length < 1 then [ValidationIssue.titleTooShort] else []) ++
    (if p.content.length < 5 then [ValidationIssue.contentTooShort] else [])
  if issues.isEmpty then Except.ok () else Except.error issues

/-- Embedding of `_check_if_owner` (lib.rs lines 267-273). -/
def _check_if_owner (caller : Principal) (blog_post : BlogPost) : Bool :=
  if blog_post.author != caller then false else true

/-- Embedding of `do_insert` (lib.rs lines 276-278): inserts at key
`blog_post.id`. -/
def do_insert (blog_post : BlogPost) (s : Store) : Store :=
  Store.insert blog_post.id blog_post s

/-- Embedding of `_get_blog_post` (lib.rs lines 281-283). -/
def _get_blog_post (i : Nat) (s : Store) : Option BlogPost :=
  Store.get s i

/-- Embedding of `get_blog_post` (lib.rs lines 73-80); queries do not change
state. -/
def get_blog_post (i : Nat) (s : CanisterState) : Except Error BlogPost × CanisterState :=
  match _get_blog_post i s.posts with
  | some blog_post => (Except.ok blog_post, s)
  | none => (Except.error (Error.NotFound ("Blog post with ID " ++ toString i ++ " not found")), s)

/-- Embedding of `create_blog_post` (lib.rs lines 84-110).  Mirrors the
source's order: the id is allocated (counter advanced) first, validation is
checked second, and the `id.is_none()` branch is tested before the validation
branch. -/
def create_blog_post (caller : Principal) (now : Nat) (payload : BlogPostPayload)
    (s : CanisterState) : Except Error BlogPost × CanisterState :=
  let alloc := generate_unique_id s.idCounter
  let s1 : CanisterState := { s with idCounter := alloc.2 }
  match alloc.1 with
  | none => (Except.error (Error.NotFound "lol"), s1)
  | some i =>
    match payload.validate with
    | Except.error errs => (Except.error (Error.ValidationErrors errs), s1)
    | Except.ok _ =>
      let blog_post : BlogPost :=
        { id := i
          title := payload.title
          content := payload.content
          author := caller
          created_at := now
          updated_at := none
          likes := 0
          categories := payload.categories
          liked := [] }
      (Except.ok blog_post, { s1 with posts := do_insert blog_post s1.posts })

/-- Embedding of `update_blog_post` (lib.rs lines 130-159): ownership is
checked before validation; on success only title/content/categories and
`updated_at` change, and the record is re-inserted at key `blog_post.id`. -/
def update_blog_post (caller : Principal) (now : Nat) (i : Nat)
    (payload : BlogPostPayload) (s : CanisterState) : Except Error BlogPost × CanisterState :=
  match _get_blog_post i s.posts with
  | some blog_post =>
    if !(_check_if_owner caller blog_post) then
      (Except.error (Error.NotAuthorized
        ("Unauthorized to update post with id=" ++ toString i ++ ". post not found")), s)
    else
      match payload.validate with
      | Except.error errs => (Except.error (Error.ValidationErrors errs), s)
      | Except.ok _ =>
        let updated : BlogPost :=
          { blog_post with
            title := payload.title
            content := payload.content
            categories := payload.categories
            updated_at := some now }
        (Except.ok updated, { s with posts := do_insert updated s.posts })
  | none =>
    (Except.error (Error.NotFound
      ("Blog post with ID " ++ toString i ++ " not found. Cannot update.")), s)

/-- Embedding of `delete_blog_post` (lib.rs lines 164-190): ownership first,
then the `likes > 0` guard, then removal. -/
def delete_blog_post (caller : Principal) (i : Nat)
    (s : CanisterState) : Except Error BlogPost × CanisterState :=
  match _get_blog_post i s.posts with
  | some blog_post =>
    if !(_check_if_owner caller blog_post) then
      (Except.error (Error.NotAuthorized
        ("Unauthorized to delete post with id=" ++ toString i ++ ". post not found")), s)
    else if blog_post.likes > 0 then
      (Except.error (Error.HasLikes
        ("Blog post with ID " ++ toString i ++ " has likes. Cannot delete.")), s)
    else
      (Except.ok blog_post, { s with posts := Store.remove i s.posts })
  | none =>
    (Except.error (Error.NotFound
      ("Blog post with ID " ++ toString i ++ " not found. Cannot delete.")), s)

/-- Embedding of `like_blog_post` (lib.rs lines 194-220): the `u32::MAX`
saturation guard is tested before the duplicate-vote guard; on success the
likes counter is incremented (a `u32` addition) and the caller is pushed onto
the `liked` vector. -/
def like_blog_post (caller : Principal) (i : Nat)
    (s : CanisterState) : Except Error BlogPost × CanisterState :=
  match _get_blog_post i s.posts with
  | some blog_post =>
    if blog_post.likes == U32MAX then
      (Except.error (Error.MaxLikes
        ("Blog post with ID " ++ toString i ++ " already at maximum likes.")), s)
    else
      match position (fun user => user == caller) blog_post.liked with
      | some _ =>
        (Except.error (Error.AlreadyLiked
          ("Blog post with ID " ++ toString i ++ " has already been liked by caller: "
            ++ caller ++ ".")), s)
      | none =>
        let updated : BlogPost :=
          { blog_post with
            likes := (blog_post.likes + 1) % (U32MAX + 1)
            liked := blog_post.liked ++ [caller] }
        (Except.ok updated, { s with posts := do_insert updated s.posts })
  | none =>
    (Except.error (Error.NotFound
      ("Blog post with ID " ++ toString i ++ " not found. Cannot like.")), s)

/-- Embedding of `dislike_blog_post` (lib.rs lines 224-251): the `likes == 0`
guard is tested before vote membership; on success the likes counter is
decremented and the caller is removed with `swap_remove`. -/
def dislike_blog_post (caller : Principal) (i : Nat)
    (s : CanisterState) : Except Error BlogPost × CanisterState :=
  match _get_blog_post i s.posts with
  | some blog_post =>
    if blog_post.likes == 0 then
      (Except.error (Error.MinLikes
        ("Blog post with ID " ++ toString i ++ " already at minimum likes.")), s)
    else
      match position (fun user => user == caller) blog_post.liked with
      | none =>
        (Except.error (Error.NotLiked
          ("Blog post with ID " ++ toString i ++ " hasn't yet been liked by caller: "
            ++ caller ++ ".")), s)
      | some idx =>
        let updated : BlogPost :=
          { blog_post with
            likes := blog_post.likes - 1
            liked := swapRemove blog_post.liked idx }
        (Except.ok updated, { s with posts := do_insert updated s.posts })
  | none =>
    (Except.error (Error.NotFound
      ("Blog post with ID " ++ toString i ++ " not found. Cannot dislike.")), s)

/-- The canister's operation surface. -/
inductive Op where
  | getPost (i : Nat)
  | create (payload : BlogPostPayload)
  | update (i : Nat) (payload : BlogPostPayload)
  | delete (i : Nat)
  | like (i : Nat)
  | dislike (i : Nat)
deriving DecidableEq, Repr

/-- Dispatch of one call, given the IC environment (caller, time). -/
def applyOp (caller : Principal) (now : Nat) (op : Op)
    (s : CanisterState) : Except Error BlogPost × CanisterState :=
  match op with
  | Op.getPost i => get_blog_post i s
  | Op.create payload => create_blog_post caller now payload s
  | Op.update i payload => update_blog_post caller now i payload s
  | Op.delete i => delete_blog_post caller i s
  | Op.like i => like_blog_post caller i s
  | Op.dislike i => dislike_blog_post caller i s

/-- A call record: caller, time, operation. -/
abbrev Call := Principal × Nat × Op

/-- Run a sequence of calls from a state. -/
def runTrace (trace : List Call) (s : CanisterState) : CanisterState :=
  match trace with
  | [] => s
  | c :: rest => runTrace rest (applyOp c.1 c.2.1 c.2.2 s).2

/-! ### Helper lemmas about `position` and `swapRemove` -/

theorem position_eq_none_iff (p : α → Bool) (l : List α) :
    position p l = none ↔ ∀ x ∈ l, p x = false := by
  induction l with
  | nil => simp [position]
  | cons x xs ih =>
    by_cases hx : p x
    · simp [position, hx]
    · simp [position, hx, ih]

theorem position_decomp {p : α → Bool} {l : List α} {i : Nat}
    (h : position p l = some i) :
    ∃ A c B, l = A ++ c :: B ∧ A.length = i := by
  induction l generalizing i with
  | nil => simp [position] at h
  | cons x xs ih =>
    by_cases hx : p x
    · simp [position, hx] at h
      exact ⟨[], x, xs, rfl, h⟩
    · simp [position, hx] at h
      obtain ⟨j, hj, rfl⟩ := h
      obtain ⟨A, c, B, rfl, rfl⟩ := ih hj
      exact ⟨x :: A, c, B, rfl, rfl⟩

theorem position_append_self [BEq α] [LawfulBEq α] {c : α} {l : List α}
    (h : c ∉ l) : position (fun u => u == c) (l ++ [c]) = some l.length := by
  induction l with
  | nil => simp [position]
  | cons x xs ih =>
    rw [List.mem_cons, not_or] at h
    have hx : (x == c) = false := beq_eq_false_iff_ne.mpr (Ne.symm h.1)
    simp [position, hx, ih h.2]

theorem set_append_cons (A : List α) (c b : α) (D : List α) :
    (A ++ c :: D).set A.length b = A ++ b :: D := by
  induction A with
  | nil => rfl
  | cons a A ih => simp [ih]

theorem swapRemove_concat (A : List α) (c : α) :
    swapRemove (A ++ [c]) A.length = A := by
  unfold swapRemove
  rw [List.getLast?_concat]
  show ((A ++ [c]).set A.length c).dropLast = A
  rw [set_append_cons A c c []]
  exact List.dropLast_concat

theorem swapRemove_perm (A B : List α) (c : α) :
    List.Perm (swapRemove (A ++ c :: B) A.length) (A ++ B) := by
  rcases List.eq_nil_or_concat B with rfl | ⟨C, b, rfl⟩
  · rw [swapRemove_concat]; simp
  · rw [List.concat_eq_append]
    unfold swapRemove
    have h1 : A ++ c :: (C ++ [b]) = (A ++ c :: C) ++ [b] := by simp
    rw [h1, List.getLast?_concat]
    show (((A ++ c :: C) ++ [b]).set A.length b).dropLast.Perm (A ++ (C ++ [b]))
    rw [← h1, set_append_cons A c b (C ++ [b]),
      show A ++ b :: (C ++ [b]) = (A ++ b :: C) ++ [b] by simp, List.dropLast_concat]
    exact List.Perm.append_left A (List.perm_append_singleton b C).symm

/-! ### Helper lemmas about the store -/

theorem find?_filter_ne (s : Store) (i j : Nat) (h : j ≠ i) :
    List.find? (fun e => e.1 == j) (List.filter (fun e => !(e.1 == i)) s)
      = List.find? (fun e => e.1 == j) s := by
  induction s with
  | nil => rfl
  | cons e s ih =>
    by_cases he : e.1 = i
    · have h1 : (!(e.1 == i)) = false := by simp [he]
      rw [List.filter_cons, h1, if_neg (by simp), ih,
        List.find?_cons_of_neg _ (by simp [he]; omega)]
    · have h1 : (!(e.1 == i)) = true := by simp [he]
      rw [List.filter_cons, h1, if_pos rfl]
      by_cases hj : e.1 = j
      · rw [List.find?_cons_of_pos _ (by simp [hj]), List.find?_cons_of_pos _ (by simp [hj])]
      · rw [List.find?_cons_of_neg _ (by simp [hj]), List.find?_cons_of_neg _ (by simp [hj]), ih]

theorem Store.get_insert (s : Store) (i j : Nat) (p : BlogPost) :
    Store.get (Store.insert i p s) j = if j = i then some p else Store.get s j := by
  unfold Store.get Store.insert
  by_cases h : j = i
  · subst h
    simp
  · have h2 : ((i, p).1 == j) = false := beq_eq_false_iff_ne.mpr (by omega)
    rw [List.find?_cons_of_neg _ (by simp [h2]), find?_filter_ne s i j h, if_neg h]

/-! ### The likes/liked invariant -/

/-- Per-record invariant: the like ledger is duplicate-free, the `likes`
counter equals the number of distinct identities in it, and the counter is in
`u32` range. -/
def postInv (r : BlogPost) : Prop :=
  r.liked.Nodup ∧ r.likes = r.liked.dedup.length ∧ r.likes ≤ U32MAX

instance (r : BlogPost) : Decidable (postInv r) := by
  unfold postInv
  exact inferInstance

/-- Store-wide invariant: every stored record satisfies `postInv`. -/
def storeInv (s : Store) : Prop := ∀ e ∈ s, postInv e.2

instance (s : Store) : Decidable (storeInv s) := by
  unfold storeInv
  exact List.decidableBAll _ s

theorem storeInv_insert {s : Store} {p : BlogPost} (i : Nat) (h : storeInv s)
    (hp : postInv p) : storeInv (Store.insert i p s) := by
  intro e he
  rcases List.mem_cons.mp he with rfl | he2
  · exact hp
  · exact h e (List.mem_of_mem_filter he2)

theorem storeInv_remove {s : Store} (i : Nat) (h : storeInv s) :
    storeInv (Store.remove i s) :=
  fun e he => h e (List.mem_of_mem_filter he)

theorem storeInv_get {s : Store} {i : Nat} {r : BlogPost} (h : storeInv s)
    (hg : Store.get s i = some r) : postInv r := by
  unfold Store.get at hg
  cases hf : List.find? (fun e => e.1 == i) s with
  | none => rw [hf] at hg; cases hg
  | some e =>
    rw [hf] at hg
    cases hg
    exact h e (List.mem_of_find?_eq_some hf)

theorem postInv_like {post : BlogPost} {caller : Principal} (h : postInv post)
    (hmax : post.likes ≠ U32MAX)
    (hpos : position (fun u => u == caller) post.liked = none) :
    postInv { post with likes := (post.likes + 1) % (U32MAX + 1),
                        liked := post.liked ++ [caller] } := by
  obtain ⟨hnd, hlen, hle⟩ := h
  have hmem : caller ∉ post.liked := by
    intro hm
    have hx := (position_eq_none_iff _ _).mp hpos caller hm
    simp at hx
  have hnd2 : (post.liked ++ [caller]).Nodup :=
    (List.perm_append_singleton caller post.liked).nodup_iff.mpr
      (List.nodup_cons.mpr ⟨hmem, hnd⟩)
  have hmod : (post.likes + 1) % (U32MAX + 1) = post.likes + 1 :=
    Nat.mod_eq_of_lt (by omega)
  refine ⟨hnd2, ?_, ?_⟩
  · show (post.likes + 1) % (U32MAX + 1) = (post.liked ++ [caller]).dedup.length
    rw [hmod, List.dedup_eq_self.mpr hnd2, List.length_append, List.length_cons,
      List.length_nil, hlen, List.dedup_eq_self.mpr hnd]
  · show (post.likes + 1) % (U32MAX + 1) ≤ U32MAX
    rw [hmod]
    omega

theorem postInv_dislike {post : BlogPost} {caller : Principal} {idx : Nat}
    (h : postInv post)
    (hpos : position (fun u => u == caller) post.liked = some idx) :
    postInv { post with likes := post.likes - 1,
                        liked := swapRemove post.liked idx } := by
  obtain ⟨hnd, hlen, hle⟩ := h
  obtain ⟨A, c, B, hdec, hAlen⟩ := position_decomp hpos
  subst hAlen
  rw [hdec] at hnd hlen ⊢
  have hperm := swapRemove_perm A B c
  have hnd1 : (A ++ B).Nodup :=
    List.Sublist.nodup ((List.sublist_cons_self c B).append_left A) hnd
  have hnd2 : (swapRemove (A ++ c :: B) A.length).Nodup := hperm.nodup_iff.mpr hnd1
  refine ⟨hnd2, ?_, ?_⟩
  · show post.likes - 1 = (swapRemove (A ++ c :: B) A.length).dedup.length
    rw [List.dedup_eq_self.mpr hnd2, hperm.length_eq, List.length_append]
    rw [List.dedup_eq_self.mpr hnd, List.length_append, List.length_cons] at hlen
    omega
  · show post.likes - 1 ≤ U32MAX
    omega

/-! ### Preservation of the invariant by every operation -/

theorem get_preserves (i : Nat) (s : CanisterState) (h : storeInv s.posts) :
    storeInv ((get_blog_post i s).2.posts) := by
  unfold get_blog_post
  cases hg : _get_blog_post i s.posts <;> exact h

theorem create_preserves (c : Principal) (t : Nat) (p : BlogPostPayload)
    (s : CanisterState) (h : storeInv s.posts) :
    storeInv ((create_blog_post c t p s).2.posts) := by
  unfold create_blog_post do_insert
  dsimp only
  split
  · exact h
  · split
    · exact h
    · exact storeInv_insert _ h ⟨List.nodup_nil, rfl, Nat.zero_le _⟩

theorem update_preserves (c : Principal) (t : Nat) (i : Nat) (p : BlogPostPayload)
    (s : CanisterState) (h : storeInv s.posts) :
    storeInv ((update_blog_post c t i p s).2.posts) := by
  unfold update_blog_post do_insert
  cases hg : _get_blog_post i s.posts with
  | none => exact h
  | some post =>
    dsimp only
    split
    · exact h
    · split
      · exact h
      · have hp : postInv post := storeInv_get h hg
        exact storeInv_insert _ h hp

theorem delete_preserves (c : Principal) (i : Nat) (s : CanisterState)
    (h : storeInv s.posts) : storeInv ((delete_blog_post c i s).2.posts) := by
  unfold delete_blog_post
  cases hg : _get_blog_post i s.posts with
  | none => exact h
  | some post =>
    dsimp only
    split
    · exact h
    · split
      · exact h
      · exact storeInv_remove _ h

theorem like_preserves (c : Principal) (i : Nat) (s : CanisterState)
    (h : storeInv s.posts) : storeInv ((like_blog_post c i s).2.posts) := by
  unfold like_blog_post do_insert
  cases hg : _get_blog_post i s.posts with
  | none => exact h
  | some post =>
    dsimp only
    split
    · exact h
    · rename_i hmax0
      split
      · exact h
      · rename_i hpos0
        have hmax : post.likes ≠ U32MAX := by simpa using hmax0
        exact storeInv_insert _ h (postInv_like (storeInv_get h hg) hmax hpos0)

theorem dislike_preserves (c : Principal) (i : Nat) (s : CanisterState)
    (h : storeInv s.posts) : storeInv ((dislike_blog_post c i s).2.posts) := by
  unfold dislike_blog_post do_insert
  cases hg : _get_blog_post i s.posts with
  | none => exact h
  | some post =>
    dsimp only
    split
    · exact h
    · split
      · exact h
      · rename_i hpos0
        exact storeInv_insert _ h (postInv_dislike (storeInv_get h hg) hpos0)

theorem applyOp_preserves (c : Principal) (t : Nat) (op : Op) (s : CanisterState)
    (h : storeInv s.posts) : storeInv ((applyOp c t op s).2.posts) := by
  cases op with
  | getPost i => exact get_preserves i s h
  | create p => exact create_preserves c t p s h
  | update i p => exact update_preserves c t i p s h
  | delete i => exact delete_preserves c i s h
  | like i => exact like_preserves c i s h
  | dislike i => exact dislike_preserves c i s h

theorem runTrace_preserves (trace : List Call) (s : CanisterState)
    (h : storeInv s.posts) : storeInv ((runTrace trace s).posts) := by
  induction trace generalizing s with
  | nil => exact h
  | cons call rest ih =>
    exact ih _ (applyOp_preserves call.1 call.2.1 call.2.2 s h)

/-! ### Repeated creation and the id counter -/

theorem create_snd_idCounter (c : Principal) (t : Nat) (p : BlogPostPayload)
    (s : CanisterState) :
    (create_blog_post c t p s).2.idCounter = (s.idCounter + 1) % (U64MAX + 1) := by
  unfold create_blog_post
  dsimp only
  split
  · rfl
  · split <;> rfl

theorem create_fst_of_lt {s : CanisterState} (hlt : s.idCounter < U64MAX)
    (c : Principal) (t : Nat) {p : BlogPostPayload}
    (hv : p.validate = Except.ok ()) :
    (create_blog_post c t p s).1 = Except.ok
      { id := s.idCounter, title := p.title, content := p.content, author := c,
        created_at := t, updated_at := none, likes := 0,
        categories := p.categories, liked := [] } := by
  unfold create_blog_post generate_unique_id
  dsimp only
  rw [if_pos hlt, hv]

theorem create_fst_of_max {s : CanisterState} (hmax : s.idCounter = U64MAX)
    (c : Principal) (t : Nat) (p : BlogPostPayload) :
    (create_blog_post c t p s).1 = Except.error (Error.NotFound "lol") := by
  unfold create_blog_post generate_unique_id
  dsimp only
  rw [hmax, if_neg (lt_irrefl U64MAX)]

/-- The state after `n` successive `create` calls with a fixed caller, time
and payload. -/
def iterCreate (c : Principal) (t : Nat) (p : BlogPostPayload) :
    Nat → CanisterState → CanisterState
  | 0, s => s
  | n + 1, s => iterCreate c t p n (create_blog_post c t p s).2

/-- The id returned by the `n`-th `create` call (0-based) in a run of
successive creates starting from `s`; `none` when that call fails. -/
def createdIdAt (c : Principal) (t : Nat) (p : BlogPostPayload) (n : Nat)
    (s : CanisterState) : Option Nat :=
  Option.map BlogPost.id (create_blog_post c t p (iterCreate c t p n s)).1.toOption

theorem iterCreate_idCounter (c : Principal) (t : Nat) (p : BlogPostPayload) :
    ∀ (n : Nat) (s : CanisterState), s.idCounter < U64MAX + 1 →
      (iterCreate c t p n s).idCounter = (s.idCounter + n) % (U64MAX + 1) := by
  intro n
  induction n with
  | zero => intro s hs; exact (Nat.mod_eq_of_lt hs).symm
  | succ n ih =>
    intro s hs
    rw [iterCreate, ih _ (by rw [create_snd_idCounter]; exact Nat.mod_lt _ (Nat.succ_pos _)),
      create_snd_idCounter, Nat.mod_add_mod]
    congr 1
    omega

/-- A payload passing validation. -/
def samplePayload : BlogPostPayload :=
  { title := "Title", content := "Hello world", categories := [] }

/-- A payload violating both field constraints. -/
def invalidPayload : BlogPostPayload :=
  { title := "", content := "x", categories := [] }

/-- Claim C1 (refuted; code bug in `generate_unique_id`): in a run of
successive creates from the initial state, call number 0 succeeds and returns
id 0; call number `u64::MAX` (issued with the counter at `u64::MAX`) fails as
specified, but that very call has already wrapped the durable counter to 0,
so call number `u64::MAX + 1` succeeds and returns id 0 again — a previously
issued id is reissued, contradicting "ids are strictly increasing and never
repeat". -/
theorem create_id_reissued_after_exhaustion :
    createdIdAt "alice" 0 samplePayload 0 initState = some 0 ∧
    createdIdAt "alice" 0 samplePayload U64MAX initState = none ∧
    createdIdAt "alice" 0 samplePayload (U64MAX + 1) initState = some 0 := by
  have hv : samplePayload.validate = Except.ok () := rfl
  refine ⟨?_, ?_, ?_⟩
  · unfold createdIdAt
    rw [show iterCreate "alice" 0 samplePayload 0 initState = initState from rfl,
      create_fst_of_lt (by norm_num [initState, U64MAX]) _ _ hv]
    rfl
  · have hc : (iterCreate "alice" 0 samplePayload U64MAX initState).idCounter = U64MAX := by
      rw [iterCreate_idCounter _ _ _ _ _ (by norm_num [initState])]
      simp [initState]
    unfold createdIdAt
    rw [create_fst_of_max hc _ _ _]
    rfl
  · have hc : (iterCreate "alice" 0 samplePayload (U64MAX + 1) initState).idCounter = 0 := by
      rw [iterCreate_idCounter _ _ _ _ _ (by norm_num [initState])]
      simp [initState]
    unfold createdIdAt
    rw [create_fst_of_lt (by rw [hc]; norm_num [U64MAX]) _ _ hv]
    rw [Except.toOption, Option.map]
    rw [hc]

/-- Claim C2 (confirmed): in every state reachable from installation, every
stored record's `likes` counter equals the number of distinct identities in
its `liked` ledger, and the inductive invariant behind this (`storeInv`:
ledger duplicate-free, `likes` equal to the distinct count, counter in `u32`
range) is preserved by every operation. -/
theorem likes_eq_distinct_liked_invariant :
    (∀ (trace : List Call) (e : Nat × BlogPost),
      e ∈ (runTrace trace initState).posts → e.2.likes = e.2.liked.dedup.length) ∧
    (∀ (c : Principal) (t : Nat) (op : Op) (s : CanisterState),
      storeInv s.posts → storeInv ((applyOp c t op s).2.posts)) := by
  constructor
  · intro trace e he
    have h0 : storeInv initState.posts := by intro x hx; cases hx
    exact ((runTrace_preserves trace initState h0) e he).2.1
  · exact applyOp_preserves

/-- Instantiation of the preservation half of the C2 theorem at a concrete
state and operation. -/
theorem likes_eq_distinct_liked_invariant_witness :
    storeInv ((applyOp "alice" 7 (Op.create samplePayload) initState).2.posts) :=
  likes_eq_distinct_liked_invariant.2 "alice" 7 (Op.create samplePayload) initState
    (by decide)

/-- Claim C3 (refuted; code bug): when the id space is exhausted (counter at
`u64::MAX`), `create` does not report a distinct capacity-exhausted error
kind — the `Error` enum has no such variant at all — it returns `NotFound`
with the placeholder message "lol" (and the call wraps the stored counter to
0). -/
theorem create_at_exhaustion_returns_notfound :
    create_blog_post "alice" 0 samplePayload { idCounter := U64MAX, posts := [] }
      = (Except.error (Error.NotFound "lol"), { idCounter := 0, posts := [] }) := rfl

/-- Claim C4 counterexample: a `create` with a doubly-invalid payload from
the initial state returns the validation error and creates no record, but
the id counter advances from 0 to 1 — the identifier was allocated before
validation ran. -/
theorem create_invalid_advances_counter_cex :
    create_blog_post "alice" 0 invalidPayload initState
      = (Except.error (Error.ValidationErrors
          [ValidationIssue.titleTooShort, ValidationIssue.contentTooShort]),
         { idCounter := 1, posts := [] }) ∧
    initState.idCounter = 0 :=
  ⟨rfl, rfl⟩

/-- Claim C4 (corrected): `create` allocates the identifier before
validating, so when validation fails (counter not exhausted) it returns
`ValidationErrors` and creates no record, but the id counter has advanced by
one. -/
theorem create_invalid_payload_behavior
    (c : Principal) (t : Nat) (p : BlogPostPayload) (s : CanisterState)
    (errs : List ValidationIssue)
    (hv : p.validate = Except.error errs) (hlt : s.idCounter < U64MAX) :
    create_blog_post c t p s
      = (Except.error (Error.ValidationErrors errs),
         { idCounter := s.idCounter + 1, posts := s.posts }) := by
  unfold create_blog_post generate_unique_id
  dsimp only
  rw [if_pos hlt, hv, Nat.mod_eq_of_lt (by omega)]

/-- Instantiation of the corrected C4 theorem at a concrete state. -/
theorem create_invalid_payload_behavior_witness :
    create_blog_post "bob" 3 invalidPayload { idCounter := 5, posts := [] }
      = (Except.error (Error.ValidationErrors
          [ValidationIssue.titleTooShort, ValidationIssue.contentTooShort]),
         { idCounter := 6, posts := [] }) :=
  create_invalid_payload_behavior "bob" 3 invalidPayload
    { idCounter := 5, posts := [] } _ rfl (by norm_num [U64MAX])

/-- A concrete stored record used by the witnesses. -/
def samplePost : BlogPost :=
  { id := 0, title := "Title", content := "Hello world", author := "alice",
    created_at := 0, updated_at := none, likes := 0, categories := [],
    liked := [] }

/-- The record `samplePost` after a successful update by its author at time 9. -/
def updatedSamplePost : BlogPost :=
  { samplePost with
    title := "New",
    content := "Fresh text",
    categories := ["a"],
    updated_at := some 9 }

/-- Claim C5 (confirmed): for an existing record whose author is the caller
and a payload passing validation, `update` overwrites exactly title, content
and categories, sets `updated_at` to the current time, leaves `likes`,
`liked`, `created_at`, `author` and `id` unchanged, persists the updated
record and returns it. -/
theorem update_by_author_frame
    (c : Principal) (t : Nat) (i : Nat) (p : BlogPostPayload) (s : CanisterState)
    (post : BlogPost)
    (hg : _get_blog_post i s.posts = some post)
    (ha : post.author = c)
    (hv : p.validate = Except.ok ()) :
    update_blog_post c t i p s
      = (Except.ok
          { post with
            title := p.title,
            content := p.content,
            categories := p.categories,
            updated_at := some t },
         { s with
           posts := do_insert
             { post with
               title := p.title,
               content := p.content,
               categories := p.categories,
               updated_at := some t } s.posts }) := by
  unfold update_blog_post
  rw [hg]
  dsimp only
  split
  · rename_i hcon
    exact absurd hcon (by simp [_check_if_owner, ha])
  · rw [hv]

/-- Instantiation of the C5 theorem at a concrete state. -/
theorem update_by_author_frame_witness :
    update_blog_post "alice" 9 0
        { title := "New", content := "Fresh text", categories := ["a"] }
        { idCounter := 1, posts := [(0, samplePost)] }
      = (Except.ok updatedSamplePost,
         { idCounter := 1, posts := do_insert updatedSamplePost [(0, samplePost)] }) :=
  update_by_author_frame "alice" 9 0 _ { idCounter := 1, posts := [(0, samplePost)] }
    samplePost rfl rfl rfl

/-- Claim C6 (confirmed): `update` and `delete` invoked by a caller other
than the record's author return `NotAuthorized` and leave the whole state
(counter and store) unchanged. -/
theorem nonauthor_update_delete_notauthorized
    (c : Principal) (t : Nat) (i : Nat) (p : BlogPostPayload) (s : CanisterState)
    (post : BlogPost)
    (hg : _get_blog_post i s.posts = some post)
    (ha : post.author ≠ c) :
    update_blog_post c t i p s
      = (Except.error (Error.NotAuthorized
          ("Unauthorized to update post with id=" ++ toString i ++ ". post not found")), s) ∧
    delete_blog_post c i s
      = (Except.error (Error.NotAuthorized
          ("Unauthorized to delete post with id=" ++ toString i ++ ". post not found")), s) := by
  have hown : (!(_check_if_owner c post)) = true := by
    simp [_check_if_owner, ha]
  constructor
  · unfold update_blog_post
    rw [hg]
    dsimp only
    split
    · rfl
    · rename_i hcon
      exact absurd hown hcon
  · unfold delete_blog_post
    rw [hg]
    dsimp only
    split
    · rfl
    · rename_i hcon
      exact absurd hown hcon

/-- Instantiation of the C6 theorem at a concrete state. -/
theorem nonauthor_update_delete_notauthorized_witness :
    update_blog_post "mallory" 4 0 samplePayload { idCounter := 1, posts := [(0, samplePost)] }
      = (Except.error (Error.NotAuthorized
          "Unauthorized to update post with id=0. post not found"),
         { idCounter := 1, posts := [(0, samplePost)] }) ∧
    delete_blog_post "mallory" 0 { idCounter := 1, posts := [(0, samplePost)] }
      = (Except.error (Error.NotAuthorized
          "Unauthorized to delete post with id=0. post not found"),
         { idCounter := 1, posts := [(0, samplePost)] }) :=
  nonauthor_update_delete_notauthorized "mallory" 4 0 samplePayload
    { idCounter := 1, posts := [(0, samplePost)] } samplePost rfl (by decide)

/-- The record `samplePost` with one like from "bob". -/
def likedSamplePost : BlogPost :=
  { samplePost with likes := 1, liked := ["bob"] }

/-- Claim C7 (confirmed): `delete` by the author on a record with
`likes > 0` returns `HasLikes`, the state is unchanged, and the record is
still readable, unchanged, afterwards. -/
theorem delete_with_likes_haslikes
    (c : Principal) (i : Nat) (s : CanisterState) (post : BlogPost)
    (hg : _get_blog_post i s.posts = some post)
    (ha : post.author = c) (hl : post.likes > 0) :
    delete_blog_post c i s
      = (Except.error (Error.HasLikes
          ("Blog post with ID " ++ toString i ++ " has likes. Cannot delete.")), s) ∧
    _get_blog_post i (delete_blog_post c i s).2.posts = some post := by
  have h1 : delete_blog_post c i s
      = (Except.error (Error.HasLikes
          ("Blog post with ID " ++ toString i ++ " has likes. Cannot delete.")), s) := by
    unfold delete_blog_post
    rw [hg]
    dsimp only
    rw [if_neg (show ¬(!(_check_if_owner c post)) = true by simp [_check_if_owner, ha]),
      if_pos hl]
  exact ⟨h1, by rw [h1]; exact hg⟩

/-- Instantiation of the C7 theorem at a concrete state. -/
theorem delete_with_likes_haslikes_witness :
    delete_blog_post "alice" 0 { idCounter := 1, posts := [(0, likedSamplePost)] }
      = (Except.error (Error.HasLikes "Blog post with ID 0 has likes. Cannot delete."),
         { idCounter := 1, posts := [(0, likedSamplePost)] }) ∧
    _get_blog_post 0
        (delete_blog_post "alice" 0 { idCounter := 1, posts := [(0, likedSamplePost)] }).2.posts
      = some likedSamplePost :=
  delete_with_likes_haslikes "alice" 0 { idCounter := 1, posts := [(0, likedSamplePost)] }
    likedSamplePost rfl rfl (by decide)

/-- A record at like saturation whose ledger already contains "bob". -/
def maxLikesPost : BlogPost :=
  { samplePost with likes := U32MAX, liked := ["bob"] }

/-- Claim C8 counterexample: a like by a caller who is already in the
record's ledger is not answered with `AlreadyLiked` when the record sits at
`u32::MAX` likes — the saturation guard is tested first and the call returns
`MaxLikes` instead (the state is still unchanged). -/
theorem like_duplicate_at_max_returns_maxlikes_cex :
    "bob" ∈ maxLikesPost.liked ∧
    like_blog_post "bob" 0 { idCounter := 1, posts := [(0, maxLikesPost)] }
      = (Except.error (Error.MaxLikes "Blog post with ID 0 already at maximum likes."),
         { idCounter := 1, posts := [(0, maxLikesPost)] }) :=
  ⟨List.mem_singleton.mpr rfl, rfl⟩

/-- Claim C8 (corrected): a second like by a caller already present in the
record's ledger returns `AlreadyLiked` and leaves the state (hence `likes`
and `liked`) unchanged, provided the record is not at the `u32::MAX`
saturation bound — at the bound the source's saturation guard fires first
and returns `MaxLikes` (also leaving the state unchanged). -/
theorem like_duplicate_returns_alreadyliked
    (c : Principal) (i : Nat) (s : CanisterState) (post : BlogPost)
    (hg : _get_blog_post i s.posts = some post)
    (hmem : c ∈ post.liked) (hmax : post.likes ≠ U32MAX) :
    like_blog_post c i s
      = (Except.error (Error.AlreadyLiked
          ("Blog post with ID " ++ toString i ++ " has already been liked by caller: "
            ++ c ++ ".")), s) := by
  unfold like_blog_post
  rw [hg]
  dsimp only
  rw [if_neg (show ¬(post.likes == U32MAX) = true by simp [hmax])]
  cases hpos : position (fun u => u == c) post.liked with
  | none =>
    exfalso
    have hx := (position_eq_none_iff _ _).mp hpos c hmem
    simp at hx
  | some idx => rfl

/-- Instantiation of the corrected C8 theorem at a concrete state. -/
theorem like_duplicate_returns_alreadyliked_witness :
    like_blog_post "bob" 0 { idCounter := 1, posts := [(0, likedSamplePost)] }
      = (Except.error (Error.AlreadyLiked
          "Blog post with ID 0 has already been liked by caller: bob."), 
         { idCounter := 1, posts := [(0, likedSamplePost)] }) :=
  like_duplicate_returns_alreadyliked "bob" 0 { idCounter := 1, posts := [(0, likedSamplePost)] }
    likedSamplePost rfl (List.mem_singleton.mpr rfl) (by decide)

/-- Claim C9 (confirmed): a payload violating both field constraints (title
shorter than 1, content shorter than 5) makes both `create` and `update`
(the latter for an existing record owned by the caller) return a validation
failure reporting both violated rules, not only the first. -/
theorem validation_reports_all_violations
    (c : Principal) (t : Nat) (i : Nat) (p : BlogPostPayload) (s : CanisterState)
    (post : BlogPost)
    (ht : p.title.length < 1) (hcnt : p.content.length < 5)
    (hlt : s.idCounter < U64MAX)
    (hg : _get_blog_post i s.posts = some post) (ha : post.author = c) :
    (create_blog_post c t p s).1 = Except.error (Error.ValidationErrors
      [ValidationIssue.titleTooShort, ValidationIssue.contentTooShort]) ∧
    (update_blog_post c t i p s).1 = Except.error (Error.ValidationErrors
      [ValidationIssue.titleTooShort, ValidationIssue.contentTooShort]) := by
  have hv : p.validate = Except.error
      [ValidationIssue.titleTooShort, ValidationIssue.contentTooShort] := by
    unfold BlogPostPayload.validate
    dsimp only
    rw [if_pos ht, if_pos hcnt]
    rfl
  constructor
  · unfold create_blog_post generate_unique_id
    dsimp only
    rw [if_pos hlt, hv]
  · unfold update_blog_post
    rw [hg]
    dsimp only
    rw [if_neg (show ¬(!(_check_if_owner c post)) = true by simp [_check_if_owner, ha]), hv]

/-- Instantiation of the C9 theorem at a concrete state. -/
theorem validation_reports_all_violations_witness :
    (create_blog_post "alice" 2 invalidPayload
        { idCounter := 1, posts := [(0, samplePost)] }).1
      = Except.error (Error.ValidationErrors
          [ValidationIssue.titleTooShort, ValidationIssue.contentTooShort]) ∧
    (update_blog_post "alice" 2 0 invalidPayload
        { idCounter := 1, posts := [(0, samplePost)] }).1
      = Except.error (Error.ValidationErrors
          [ValidationIssue.titleTooShort, ValidationIssue.contentTooShort]) :=
  validation_reports_all_violations "alice" 2 0 invalidPayload
    { idCounter := 1, posts := [(0, samplePost)] } samplePost (by decide) (by decide)
    (by norm_num [U64MAX]) rfl rfl

/-- Claim C10 (confirmed): for an existing record (stored under its own id)
with `likes` below `u32::MAX` and a caller not yet in its ledger, `like`
followed by `dislike` by that same caller on that id succeeds in both steps,
and the second call restores the record exactly: `likes` and the `liked`
ledger are back to their values before the like. -/
theorem like_then_dislike_roundtrip
    (c : Principal) (i : Nat) (s : CanisterState) (post : BlogPost)
    (hg : _get_blog_post i s.posts = some post)
    (hid : post.id = i)
    (hmax : post.likes < U32MAX)
    (hmem : c ∉ post.liked) :
    (like_blog_post c i s).1 = Except.ok
      { post with likes := post.likes + 1, liked := post.liked ++ [c] } ∧
    (dislike_blog_post c i (like_blog_post c i s).2).1 = Except.ok post ∧
    _get_blog_post i (dislike_blog_post c i (like_blog_post c i s).2).2.posts
      = some post := by
  have hmod : (post.likes + 1) % (U32MAX + 1) = post.likes + 1 :=
    Nat.mod_eq_of_lt (by omega)
  have hpnone : position (fun u => u == c) post.liked = none :=
    (position_eq_none_iff _ _).mpr
      (fun x hx => beq_eq_false_iff_ne.mpr (fun he => hmem (he ▸ hx)))
  have hlike : like_blog_post c i s
      = (Except.ok { post with likes := post.likes + 1, liked := post.liked ++ [c] },
         { s with
           posts := do_insert
             { post with likes := post.likes + 1, liked := post.liked ++ [c] }
             s.posts }) := by
    unfold like_blog_post
    rw [hg]
    dsimp only
    rw [if_neg (show ¬(post.likes == U32MAX) = true by simp; omega), hpnone, hmod]
  have hget1 : _get_blog_post i
      ({ s with
         posts := do_insert
           { post with likes := post.likes + 1, liked := post.liked ++ [c] }
           s.posts } : CanisterState).posts
      = some { post with likes := post.likes + 1, liked := post.liked ++ [c] } := by
    unfold _get_blog_post do_insert
    dsimp only
    rw [hid, Store.get_insert, if_pos rfl]
  have hdis : dislike_blog_post c i
      { s with
        posts := do_insert
          { post with likes := post.likes + 1, liked := post.liked ++ [c] }
          s.posts }
      = (Except.ok post,
         { s with
           posts := do_insert post (do_insert
             { post with likes := post.likes + 1, liked := post.liked ++ [c] }
             s.posts) }) := by
    unfold dislike_blog_post
    rw [hget1]
    dsimp only
    rw [if_neg (show ¬(post.likes + 1 == 0) = true by simp),
      position_append_self hmem]
    dsimp only
    rw [swapRemove_concat, Nat.add_sub_cancel]
  refine ⟨?_, ?_, ?_⟩
  · rw [hlike]
  · rw [hlike]
    dsimp only
    rw [hdis]
  · rw [hlike]
    dsimp only
    rw [hdis]
    unfold _get_blog_post do_insert
    dsimp only
    rw [hid, Store.get_insert, if_pos rfl]

/-- Instantiation of the C10 theorem at a concrete state. -/
theorem like_then_dislike_roundtrip_witness :
    (like_blog_post "bob" 0 { idCounter := 1, posts := [(0, samplePost)] }).1
      = Except.ok { samplePost with likes := 1, liked := ["bob"] } ∧
    (dislike_blog_post "bob" 0
        (like_blog_post "bob" 0 { idCounter := 1, posts := [(0, samplePost)] }).2).1
      = Except.ok samplePost ∧
    _get_blog_post 0 (dislike_blog_post "bob" 0
        (like_blog_post "bob" 0 { idCounter := 1, posts := [(0, samplePost)] }).2).2.posts
      = some samplePost :=
  like_then_dislike_roundtrip "bob" 0 { idCounter := 1, posts := [(0, samplePost)] }
    samplePost rfl rfl (by norm_num [samplePost, U32MAX]) (by decide)
